import Mathlib

/-!
Shallow embedding of the plain-C I2Cdev library
(src/plainC/I2Cdev/I2Cdev.c and I2Cdev.h): the Fastwire bus engine, the
byte/word transfer layer and the bit-field accessor layer.

The hardware (AVR TWI peripheral) is modelled by an oracle `Env` giving,
for each completed busy-wait (indexed by an event counter `k`), whether the
TWINT flag appears at each polling iteration, and the values read from the
TWSR status register and the TWDR data register.  Machine state `St` holds
the event counter and a log of the writes the master performs on the
control register (TWCR) and the data register (TWDR); the TWDR writes are
exactly the bytes the master puts on the wire.  All machine integers are
Nat with explicit truncation (% 256, % 65536, % 2^32) where the C code
truncates.
-/

set_option maxRecDepth 40000

namespace I2C

/-- AVR TWI control-register bit positions (TWINT, TWEA, TWSTA, TWSTO,
TWEN).  Modelled from the spec: these constants come from the platform
header (avr/io.h), which is not part of this repository; TWEA is the
continue-acknowledge bit of the spec's BusEngine description. -/
def TWINT : Nat := 7

/-- TWEA bit position (continue-acknowledge); see `TWINT`. -/
def TWEA : Nat := 6

/-- TWSTA bit position (start); see `TWINT`. -/
def TWSTA : Nat := 5

/-- TWSTO bit position (stop); see `TWINT`. -/
def TWSTO : Nat := 4

/-- TWEN bit position (enable); see `TWINT`. -/
def TWEN : Nat := 2

/-- Status code, from src/plainC/I2Cdev/I2Cdev.h. -/
def TW_START : Nat := 0x08

/-- Status code, from src/plainC/I2Cdev/I2Cdev.h. -/
def TW_REP_START : Nat := 0x10

/-- Status code, from src/plainC/I2Cdev/I2Cdev.h. -/
def TW_MT_SLA_ACK : Nat := 0x18

/-- Status code, from src/plainC/I2Cdev/I2Cdev.h. -/
def TW_MT_SLA_NACK : Nat := 0x20

/-- Status code, from src/plainC/I2Cdev/I2Cdev.h. -/
def TW_MT_DATA_ACK : Nat := 0x28

/-- Status code, from src/plainC/I2Cdev/I2Cdev.h. -/
def TW_MT_DATA_NACK : Nat := 0x30

/-- Status code, from src/plainC/I2Cdev/I2Cdev.h. -/
def TW_MR_SLA_ACK : Nat := 0x40

/-- Status code, from src/plainC/I2Cdev/I2Cdev.h. -/
def TW_MR_SLA_NACK : Nat := 0x48

/-- Status code, from src/plainC/I2Cdev/I2Cdev.h. -/
def TW_MR_DATA_ACK : Nat := 0x50

/-- Status code, from src/plainC/I2Cdev/I2Cdev.h. -/
def TW_MR_DATA_NACK : Nat := 0x58

/-- Default read timeout, from I2CDEV_DEFAULT_READ_TIMEOUT in I2Cdev.h. -/
def I2CDEV_DEFAULT_READ_TIMEOUT : Nat := 1000

/-- TWCR command issued for a START: (1 shl TWINT) or (1 shl TWEN) or
(1 shl TWSTO) or (1 shl TWSTA), as in the do-while loops of the source. -/
def cmdStart : Nat := (1 <<< TWINT) ||| (1 <<< TWEN) ||| (1 <<< TWSTO) ||| (1 <<< TWSTA)

/-- TWCR command (1 shl TWINT) or (1 shl TWEN): clock one byte with no
acknowledge requested; also used to clock in the final byte of a read. -/
def cmdGo : Nat := (1 <<< TWINT) ||| (1 <<< TWEN)

/-- TWCR command with the TWEA continue-acknowledge bit also set, used to
clock in every received byte except the last. -/
def cmdRecvAck : Nat := (1 <<< TWINT) ||| (1 <<< TWEN) ||| (1 <<< TWEA)

/-- TWCR command for a STOP condition, from Fastwire_stop. -/
def cmdStop : Nat := (1 <<< TWINT) ||| (1 <<< TWEN) ||| (1 <<< TWSTO)

/-- Hardware oracle.  `flag k j` tells whether the TWINT bit of TWCR is
seen set at polling iteration `j` of the k-th busy-wait; `twsr k` and
`twdr k` are the raw TWSR / TWDR register values read right after the k-th
busy-wait; `clock k` is the millis() counter value when sampled with the
event counter at `k`. -/
structure Env where
  flag : Nat → Nat → Bool
  twsr : Nat → Nat
  twdr : Nat → Nat
  clock : Nat → Nat

/-- A write performed by the master on a hardware register: `ctrl v` is
TWCR = v, `send v` is TWDR = v (a byte put on the wire). -/
inductive Ev where
  | ctrl : Nat → Ev
  | send : Nat → Ev
deriving DecidableEq

/-- Machine state: event counter (number of completed busy-waits) and the
log of register writes performed so far. -/
structure St where
  k : Nat
  log : List Ev
deriving DecidableEq

/-- TWCR = v. -/
def St.ctrl (s : St) (v : Nat) : St := ⟨s.k, s.log ++ [Ev.ctrl v]⟩

/-- TWDR = v (put byte v on the wire). -/
def St.send (s : St) (v : Nat) : St := ⟨s.k, s.log ++ [Ev.send v]⟩

/-- The busy-wait loop of Fastwire_waitInt:
int l = 250; while (!(TWCR and (1 shl TWINT)) and l-- > 0);
`flag j` is the TWINT bit at polling iteration j; the result is the final
value of l (which is -1 when the budget is exhausted). -/
def Fastwire_waitIntLoop (flag : Nat → Bool) : Nat → Nat → Int
  | j, 0 => if flag j then (0 : Int) else -1
  | j, l+1 => if flag j then ((l+1 : Nat) : Int) else Fastwire_waitIntLoop flag (j+1) l

/-- Fastwire_waitInt (source lines 455-459): spin on the TWINT flag with a
budget of 250 iterations; returns l > 0. -/
def Fastwire_waitInt (flag : Nat → Bool) : Bool :=
  decide ((0 : Int) < Fastwire_waitIntLoop flag 0 250)

/-- One busy-wait step: runs Fastwire_waitInt against the k-th flag
sequence and exposes the TWSR and TWDR values read after it (TWDR is an
8-bit register, hence the truncation); bumps the event counter. -/
def busWait (env : Env) (s : St) : Bool × Nat × Nat × St :=
  (Fastwire_waitInt (env.flag s.k), env.twsr s.k, env.twdr s.k % 256, ⟨s.k + 1, s.log⟩)

/-- Fastwire_write (source lines 538-547): TWDR = value; TWCR = go;
wait; require TW_MT_DATA_ACK.  Returns 0 on success, 1 on wait timeout,
2 on missing data ACK. -/
def Fastwire_write (env : Env) (value : Nat) (s : St) : Nat × St :=
  let s1 := (s.send value).ctrl cmdGo
  let w := busWait env s1
  if w.1 = false then (1, w.2.2.2)
  else if w.2.1 &&& 0xF8 ≠ TW_MT_DATA_ACK then (2, w.2.2.2) else (0, w.2.2.2)

/-- Body of the do-while loop of Fastwire_beginTransmission (source lines
480-492): START, wait, check start status, TWDR = device shl 1, wait.
Returns an early error code, or the masked SLA status. -/
def fwBeginAttempt (env : Env) (device : Nat) (s : St) : Option Nat × Nat × St :=
  let s1 := s.ctrl cmdStart
  let w := busWait env s1
  if w.1 = false then (some 1, 0, w.2.2.2)
  else if w.2.1 &&& 0xF8 ≠ TW_START ∧ w.2.1 &&& 0xF8 ≠ TW_REP_START then (some 2, 0, w.2.2.2)
  else
    let s2 := ((w.2.2.2).send ((device <<< 1) % 256)).ctrl cmdGo
    let w2 := busWait env s2
    if w2.1 = false then (some 3, 0, w2.2.2.2)
    else (none, w2.2.1 &&& 0xF8, w2.2.2.2)

/-- The do-while retry loop of Fastwire_beginTransmission together with its
post-loop check: while (twst == TW_MT_SLA_NACK and retry-- > 0); then
if (twst != TW_MT_SLA_ACK) return 4; return 0. -/
def fwBeginLoop (env : Env) (device : Nat) : Nat → St → Nat × St
  | 0, s =>
    let a := fwBeginAttempt env device s
    match a.1 with
    | some e => (e, a.2.2)
    | none => if a.2.1 ≠ TW_MT_SLA_ACK then (4, a.2.2) else (0, a.2.2)
  | r+1, s =>
    let a := fwBeginAttempt env device s
    match a.1 with
    | some e => (e, a.2.2)
    | none =>
      if a.2.1 = TW_MT_SLA_NACK then fwBeginLoop env device r a.2.2
      else if a.2.1 ≠ TW_MT_SLA_ACK then (4, a.2.2) else (0, a.2.2)

/-- Fastwire_beginTransmission (source lines 477-495): address phase with
retry budget retry = 2. -/
def Fastwire_beginTransmission (env : Env) (device : Nat) (s : St) : Nat × St :=
  fwBeginLoop env device 2 s

/-- Fastwire_stop (source lines 616-620). -/
def Fastwire_stop (env : Env) (s : St) : Nat × St :=
  let s1 := s.ctrl cmdStop
  let w := busWait env s1
  if w.1 = false then (1, w.2.2.2) else (0, w.2.2.2)

/-- Body of the first (write direction) address do-while loop of
Fastwire_readBuf (source lines 552-565): START, wait, check start status,
TWDR = device and 0xFE, wait.  Early error codes 16, 17, 18. -/
def fwReadAddrWAttempt (env : Env) (device : Nat) (s : St) : Option Nat × Nat × St :=
  let s1 := s.ctrl cmdStart
  let w := busWait env s1
  if w.1 = false then (some 16, 0, w.2.2.2)
  else if w.2.1 &&& 0xF8 ≠ TW_START ∧ w.2.1 &&& 0xF8 ≠ TW_REP_START then (some 17, 0, w.2.2.2)
  else
    let s2 := ((w.2.2.2).send (device &&& 0xFE)).ctrl cmdGo
    let w2 := busWait env s2
    if w2.1 = false then (some 18, 0, w2.2.2.2)
    else (none, w2.2.1 &&& 0xF8, w2.2.2.2)

/-- Retry loop around `fwReadAddrWAttempt` with its post-loop check
(source lines 552-566): NACK retries while retry-- > 0, then
if (twst != TW_MT_SLA_ACK) return 19. -/
def fwReadAddrWLoop (env : Env) (device : Nat) : Nat → St → Nat × St
  | 0, s =>
    let a := fwReadAddrWAttempt env device s
    match a.1 with
    | some e => (e, a.2.2)
    | none => if a.2.1 ≠ TW_MT_SLA_ACK then (19, a.2.2) else (0, a.2.2)
  | r+1, s =>
    let a := fwReadAddrWAttempt env device s
    match a.1 with
    | some e => (e, a.2.2)
    | none =>
      if a.2.1 = TW_MT_SLA_NACK then fwReadAddrWLoop env device r a.2.2
      else if a.2.1 ≠ TW_MT_SLA_ACK then (19, a.2.2) else (0, a.2.2)

/-- Body of the second (read direction) address do-while loop of
Fastwire_readBuf (source lines 578-591): START, wait, check start status,
TWDR = device or 0x01, wait.  Early error codes 22, 23, 24. -/
def fwReadAddrRAttempt (env : Env) (device : Nat) (s : St) : Option Nat × Nat × St :=
  let s1 := s.ctrl cmdStart
  let w := busWait env s1
  if w.1 = false then (some 22, 0, w.2.2.2)
  else if w.2.1 &&& 0xF8 ≠ TW_START ∧ w.2.1 &&& 0xF8 ≠ TW_REP_START then (some 23, 0, w.2.2.2)
  else
    let s2 := ((w.2.2.2).send (device ||| 0x01)).ctrl cmdGo
    let w2 := busWait env s2
    if w2.1 = false then (some 24, 0, w2.2.2.2)
    else (none, w2.2.1 &&& 0xF8, w2.2.2.2)

/-- Retry loop around `fwReadAddrRAttempt` with its post-loop check
(source lines 578-592): NACK retries while retry-- > 0, then
if (twst != TW_MR_SLA_ACK) return 25. -/
def fwReadAddrRLoop (env : Env) (device : Nat) : Nat → St → Nat × St
  | 0, s =>
    let a := fwReadAddrRAttempt env device s
    match a.1 with
    | some e => (e, a.2.2)
    | none => if a.2.1 ≠ TW_MR_SLA_ACK then (25, a.2.2) else (0, a.2.2)
  | r+1, s =>
    let a := fwReadAddrRAttempt env device s
    match a.1 with
    | some e => (e, a.2.2)
    | none =>
      if a.2.1 = TW_MR_SLA_NACK then fwReadAddrRLoop env device r a.2.2
      else if a.2.1 ≠ TW_MR_SLA_ACK then (25, a.2.2) else (0, a.2.2)

/-- The data phase loop of Fastwire_readBuf (source lines 594-605):
for i < num: clock a byte in (with the TWEA continue-acknowledge bit for
all bytes but the last), wait (error 26 on timeout), accept
TW_MR_DATA_ACK or TW_MR_DATA_NACK (otherwise return the raw masked
status), store TWDR into data[i].  `none` means the loop completed.
`fuel` bounds the remaining iterations (num - i at every call). -/
def fwReadData (env : Env) (num : Nat) : Nat → Nat → List Nat → St → Option Nat × List Nat × St
  | _, 0, data, s => (none, data, s)
  | i, fuel+1, data, s =>
    if i < num then
      let s1 := s.ctrl (if i = num - 1 then cmdGo else cmdRecvAck)
      let w := busWait env s1
      if w.1 = false then (some 26, data, w.2.2.2)
      else if w.2.1 &&& 0xF8 ≠ TW_MR_DATA_ACK ∧ w.2.1 &&& 0xF8 ≠ TW_MR_DATA_NACK then
        (some (w.2.1 &&& 0xF8), data, w.2.2.2)
      else fwReadData env num (i+1) fuel (data.set i w.2.2.1) w.2.2.2
    else (none, data, s)

/-- Fastwire_readBuf (source lines 549-610): write-direction address
phase, register address byte (errors 20, 21), read-direction address
phase, data phase, STOP; returns 0 on success. -/
def Fastwire_readBuf (env : Env) (device address : Nat) (data : List Nat) (num : Nat)
    (s : St) : Nat × List Nat × St :=
  let a := fwReadAddrWLoop env device 2 s
  if a.1 ≠ 0 then (a.1, data, a.2)
  else
    let s2 := ((a.2).send address).ctrl cmdGo
    let w := busWait env s2
    if w.1 = false then (20, data, w.2.2.2)
    else if w.2.1 &&& 0xF8 ≠ TW_MT_DATA_ACK then (21, data, w.2.2.2)
    else
      let b := fwReadAddrRLoop env device 2 w.2.2.2
      if b.1 ≠ 0 then (b.1, data, b.2)
      else
        let r := fwReadData env num 0 num data b.2
        match r.1 with
        | some e => (e, r.2.1, r.2.2)
        | none => (0, r.2.1, (Fastwire_stop env r.2.2).2)

/-- uint32 subtraction millis() - t1 as the C code computes it. -/
def elapsedMs (t1 t2 : Nat) : Nat :=
  (t2 % 4294967296 + (4294967296 - t1 % 4294967296)) % 4294967296

/-- I2Cdev_readBytes (source lines 162-195): one Fastwire_readBuf call;
count = length on status 0, else -1 (int8_t); a nonzero timeout that has
elapsed with count < length overrides count to -1; the int8_t count is
returned through the uint8_t return type (hence the final conversion). -/
def I2Cdev_readBytes (env : Env) (devAddr regAddr length : Nat) (data : List Nat)
    (timeout : Nat) (s : St) : Nat × List Nat × St :=
  let t1 := env.clock s.k % 4294967296
  let r := Fastwire_readBuf env ((devAddr <<< 1) % 256) regAddr data length s
  let count : Int := if r.1 = 0 then (length : Int) else -1
  let t2 := env.clock r.2.2.k % 4294967296
  let count2 : Int :=
    if 0 < timeout ∧ timeout ≤ elapsedMs t1 t2 ∧ count < (length : Int) then -1 else count
  ((count2.emod 256).toNat, r.2.1, r.2.2)

/-- I2Cdev_readByte (source lines 139-141): readBytes with length 1.
`binit` is the initial (uninitialized) value of the caller's byte. -/
def I2Cdev_readByte (env : Env) (devAddr regAddr binit timeout : Nat) (s : St) :
    Nat × Nat × St :=
  let r := I2Cdev_readBytes env devAddr regAddr 1 [binit % 256] timeout s
  (r.1, r.2.1.headD 0, r.2.2)

/-- The 16-bit view of the byte buffer that Fastwire_readBuf filled, as
the source's uint16_t intermediate[length] array aliases it on the
little-endian AVR target: cell j holds raw[2j] + 256 * raw[2j+1].  Cells
beyond the array (the source indexes them out of bounds) yield the
unspecified value `oob j`. -/
def u16ViewLE (raw : List Nat) (oob : Nat → Nat) (j : Nat) : Nat :=
  if 2*j + 1 < raw.length then raw.getD (2*j) 0 + 256 * raw.getD (2*j+1) 0
  else oob j % 65536

/-- I2Cdev_readWords (source lines 205-241): declares uint16_t
intermediate[length], fills it bytewise via Fastwire_readBuf with
(uint8_t)(length * 2) bytes, then assembles
data[i] = (intermediate[2i] shl 8) or intermediate[2i+1] over the 16-bit
cells.  `binit` gives the uninitialized bytes of intermediate, `oob` the
out-of-bounds cell reads. -/
def I2Cdev_readWords (env : Env) (devAddr regAddr length : Nat) (data : List Nat)
    (binit oob : Nat → Nat) (timeout : Nat) (s : St) : Nat × List Nat × St :=
  let t1 := env.clock s.k % 4294967296
  let inter0 := (List.range (2*length)).map (fun i => binit i % 256)
  let r := Fastwire_readBuf env ((devAddr <<< 1) % 256) regAddr inter0 ((length * 2) % 256) s
  let count : Int := if r.1 = 0 then (length : Int) else -1
  let out := if r.1 = 0 then
      (List.range length).map (fun i =>
        ((u16ViewLE r.2.1 oob (2*i)) <<< 8 ||| u16ViewLE r.2.1 oob (2*i+1)) % 65536)
    else data
  let t2 := env.clock r.2.2.k % 4294967296
  let count2 : Int :=
    if 0 < timeout ∧ timeout ≤ elapsedMs t1 t2 ∧ count < (length : Int) then -1 else count
  ((count2.emod 256).toNat, out, r.2.2)

/-- I2Cdev_readWord (source lines 150-152): readWords with length 1;
`winit` is the initial (uninitialized) value of the caller's word. -/
def I2Cdev_readWord (env : Env) (devAddr regAddr winit : Nat) (binit oob : Nat → Nat)
    (timeout : Nat) (s : St) : Nat × Nat × St :=
  let r := I2Cdev_readWords env devAddr regAddr 1 [winit % 65536] binit oob timeout s
  (r.1, r.2.1.headD 0, r.2.2)

/-- data[i] of a C buffer that is only `data.length` elements long: an
index past the end is an out-of-bounds read yielding `junk i`. -/
def dataAt (data : List Nat) (junk : Nat → Nat) (i : Nat) : Nat :=
  if i < data.length then data.getD i 0 else junk i

/-- The byte loop of I2Cdev_writeBytes (source lines 371-377): for
i < length, Fastwire_write((uint8_t) data[i]) with the result discarded.
`fuel` is length - i at every call. -/
def wbLoop (env : Env) (d : Nat → Nat) : Nat → Nat → St → St
  | 0, _, s => s
  | fuel+1, i, s => wbLoop env d fuel (i+1) (Fastwire_write env (d i % 256) s).2

/-- I2Cdev_writeBytes (source lines 356-387): beginTransmission, register
byte, data bytes, stop; status is initialized to 0 and never assigned (the
endTransmission call is commented out), and the function returns
status == 0. -/
def I2Cdev_writeBytes (env : Env) (devAddr regAddr length : Nat) (data : List Nat)
    (junk : Nat → Nat) (s : St) : Nat × St :=
  let status : Nat := 0
  let s1 := (Fastwire_beginTransmission env devAddr s).2
  let s2 := (Fastwire_write env regAddr s1).2
  let s3 := wbLoop env (dataAt data junk) length 0 s2
  let s4 := (Fastwire_stop env s3).2
  (if status = 0 then 1 else 0, s4)

/-- The word loop of I2Cdev_writeWords (source lines 411-419):
for (i = 0; i < length * 2; i++) with a second increment inside the body:
send (uint8_t)(data[i] >> 8), then status = send (uint8_t)data[i++],
break if status != 0; so i advances by 2 per iteration against the bound
length * 2.  `fuel` bounds the remaining iterations. -/
def wwLoop (env : Env) (d : Nat → Nat) (len2 : Nat) : Nat → Nat → Nat → St → Nat × St
  | 0, _, status, s => (status, s)
  | fuel+1, i, status, s =>
    if i < len2 then
      let s1 := (Fastwire_write env (((d i % 65536) >>> 8) % 256) s).2
      let r := Fastwire_write env (d i % 256) s1
      if r.1 ≠ 0 then (r.1, r.2)
      else wwLoop env d len2 fuel (i+2) r.1 r.2
    else (status, s)

/-- I2Cdev_writeWords (source lines 396-429): beginTransmission, register
byte, the word loop above, stop; returns status == 0 where status is the
result of the last low-byte Fastwire_write. -/
def I2Cdev_writeWords (env : Env) (devAddr regAddr length : Nat) (data : List Nat)
    (junk : Nat → Nat) (s : St) : Nat × St :=
  let s1 := (Fastwire_beginTransmission env devAddr s).2
  let s2 := (Fastwire_write env regAddr s1).2
  let r := wwLoop env (dataAt data junk) (length * 2) (length * 2) 0 0 s2
  let s3 := (Fastwire_stop env r.2).2
  (if r.1 = 0 then 1 else 0, s3)

/-- I2Cdev_writeByte (source lines 335-337). -/
def I2Cdev_writeByte (env : Env) (devAddr regAddr data : Nat) (s : St) : Nat × St :=
  I2Cdev_writeBytes env devAddr regAddr 1 [data] (fun _ => 0) s

/-- I2Cdev_writeWord (source lines 345-347). -/
def I2Cdev_writeWord (env : Env) (devAddr regAddr data : Nat) (s : St) : Nat × St :=
  I2Cdev_writeWords env devAddr regAddr 1 [data] (fun _ => 0) s

/-- The C int expression bitStart - length + 1, truncated to Nat as the
shift operators receive it; negative values (length > bitStart + 1) are
undefined behavior in the source and map to 0 here. -/
def shiftOf (bitStart length : Nat) : Nat :=
  ((bitStart : Int) - (length : Int) + 1).toNat

/-- uint8_t mask = ((1 shl length) - 1) shl (bitStart - length + 1), as in
I2Cdev_readBits (line 98) and I2Cdev_writeBits (line 289); the int result
is truncated at the uint8_t assignment. -/
def maskOf (bitStart length : Nat) : Nat :=
  (((1 <<< length) - 1) <<< shiftOf bitStart length) % 256

/-- The register update of I2Cdev_writeBits (source lines 289-293):
data shl-assigned by the shift (uint8_t, so truncated), data masked,
b cleared on the mask (b and not-mask on the 8-bit register), then
combined.  b is the 8-bit register value. -/
def writeBitsUpdate (b bitStart length data : Nat) : Nat :=
  (b &&& (255 ^^^ maskOf bitStart length)) |||
    (((data <<< shiftOf bitStart length) % 256) &&& maskOf bitStart length)

/-- The field extraction of I2Cdev_readBits (source lines 98-101):
b and-assigned the mask, then shifted right. -/
def readBitsExtract (b bitStart length : Nat) : Nat :=
  (b &&& maskOf bitStart length) >>> shiftOf bitStart length

/-- I2Cdev_readBits (source lines 90-104): read the byte; only on a
nonzero count mask and shift it into *data (`dinit` is the unchanged
caller value otherwise). -/
def I2Cdev_readBits (env : Env) (devAddr regAddr bitStart length binit dinit timeout : Nat)
    (s : St) : Nat × Nat × St :=
  let r := I2Cdev_readByte env devAddr regAddr binit timeout s
  if r.1 ≠ 0 then (r.1, readBitsExtract r.2.1 bitStart length, r.2.2)
  else (r.1, dinit, r.2.2)

/-- I2Cdev_writeBits (source lines 279-298): read the byte (with the
default timeout); if the returned count is nonzero, mask the new field in
and write the byte back, else return false (0). -/
def I2Cdev_writeBits (env : Env) (devAddr regAddr bitStart length data binit : Nat)
    (s : St) : Nat × St :=
  let r := I2Cdev_readByte env devAddr regAddr binit I2CDEV_DEFAULT_READ_TIMEOUT s
  if r.1 ≠ 0 then
    I2Cdev_writeByte env devAddr regAddr (writeBitsUpdate r.2.1 bitStart length data) r.2.2
  else (0, r.2.2)

/-- b = (data != 0) ? (b or (1 shl bitNum)) : (b and not (1 shl bitNum)),
on the 8-bit register, from I2Cdev_writeBit (source line 253). -/
def bitWrite8 (b bitNum data : Nat) : Nat :=
  if data ≠ 0 then (b ||| (1 <<< bitNum)) % 256
  else b &&& (255 ^^^ ((1 <<< bitNum) % 256))

/-- I2Cdev_writeBit (source lines 250-255): read the byte, ignoring the
returned count entirely, flip the bit, write back; the return value is
writeByte's. -/
def I2Cdev_writeBit (env : Env) (devAddr regAddr bitNum data binit : Nat) (s : St) :
    Nat × St :=
  let r := I2Cdev_readByte env devAddr regAddr binit I2CDEV_DEFAULT_READ_TIMEOUT s
  I2Cdev_writeByte env devAddr regAddr (bitWrite8 r.2.1 bitNum data) r.2.2

/-- The 16-bit analogue of `bitWrite8`, from I2Cdev_writeBitW (line 267). -/
def bitWrite16 (w bitNum data : Nat) : Nat :=
  if data ≠ 0 then (w ||| (1 <<< bitNum)) % 65536
  else w &&& (65535 ^^^ ((1 <<< bitNum) % 65536))

/-- I2Cdev_writeBitW (source lines 264-269): read the word, ignoring the
returned count entirely, flip the bit, write back; the return value is
writeWord's. -/
def I2Cdev_writeBitW (env : Env) (devAddr regAddr bitNum data winit : Nat)
    (binit oob : Nat → Nat) (s : St) : Nat × St :=
  let r := I2Cdev_readWord env devAddr regAddr winit binit oob I2CDEV_DEFAULT_READ_TIMEOUT s
  I2Cdev_writeWord env devAddr regAddr (bitWrite16 r.2.1 bitNum data) r.2.2

/-! ### Bit-field arithmetic lemmas -/

lemma shiftOf_eq {bitStart length : Nat} (h : length ≤ bitStart + 1) :
    shiftOf bitStart length = bitStart + 1 - length := by
  unfold shiftOf; omega

lemma maskOf_testBit {bitStart length : Nat} (h1 : length ≤ bitStart + 1) (h2 : bitStart < 8)
    (i : Nat) :
    (maskOf bitStart length).testBit i =
      (decide (bitStart + 1 - length ≤ i) && decide (i ≤ bitStart)) := by
  unfold maskOf
  rw [shiftOf_eq h1, Nat.one_shiftLeft, show (256 : Nat) = 2 ^ 8 from rfl,
    Nat.testBit_mod_two_pow, Nat.testBit_shiftLeft, Nat.testBit_two_pow_sub_one]
  by_cases hA : bitStart + 1 - length ≤ i <;> by_cases hB : i ≤ bitStart <;>
    simp [hA, hB] <;> omega

/-- C6: for every (bitStart, length) with 0 ≤ length ≤ bitStart+1 ≤ 8,
every starting register value and every value v of at most `length`
significant bits, the register transform performed by I2Cdev_writeBits
followed by the extraction performed by I2Cdev_readBits on the same
(bitStart, length) returns v, and every register bit outside the written
field keeps its original value. -/
theorem writeBits_readBits_roundtrip (bitStart length b v : Nat)
    (h1 : length ≤ bitStart + 1) (h2 : bitStart < 8) (_h3 : b < 256) (h4 : v < 2 ^ length) :
    readBitsExtract (writeBitsUpdate b bitStart length v) bitStart length = v ∧
      ∀ i, i < 8 → (i < bitStart + 1 - length ∨ bitStart < i) →
        (writeBitsUpdate b bitStart length v).testBit i = b.testBit i := by
  constructor
  · apply Nat.eq_of_testBit_eq
    intro j
    simp only [readBitsExtract, writeBitsUpdate, shiftOf_eq h1, Nat.testBit_shiftRight,
      Nat.testBit_land, Nat.testBit_lor, Nat.testBit_xor, maskOf_testBit h1 h2,
      show (255 : Nat) = 2 ^ 8 - 1 from rfl, show (256 : Nat) = 2 ^ 8 from rfl,
      Nat.testBit_two_pow_sub_one, Nat.testBit_mod_two_pow, Nat.testBit_shiftLeft,
      Nat.add_sub_cancel_left, ge_iff_le]
    by_cases hj : j < length
    · have e1 : bitStart + 1 - length + j ≤ bitStart := by omega
      have e2 : bitStart + 1 - length + j < 8 := by omega
      simp [e1, e2, Nat.le_add_right]
    · have e1 : ¬(bitStart + 1 - length + j ≤ bitStart) := by omega
      have e2 : v < 2 ^ j :=
        lt_of_lt_of_le h4 (Nat.pow_le_pow_right (by norm_num) (by omega))
      simp [e1, Nat.testBit_lt_two_pow e2]
  · intro i hi8 hout
    have e1 : ¬(bitStart + 1 - length ≤ i ∧ i ≤ bitStart) := by omega
    simp only [writeBitsUpdate, Nat.testBit_lor, Nat.testBit_land, Nat.testBit_xor,
      maskOf_testBit h1 h2, show (255 : Nat) = 2 ^ 8 - 1 from rfl,
      Nat.testBit_two_pow_sub_one]
    rcases Decidable.not_and_iff_or_not.mp e1 with h | h <;> simp [h, hi8]

/-- Witness for `writeBits_readBits_roundtrip`: the spec example,
register 0b10101111, writing 0b010 at bitStart=4, length=3, yields
register 0b10101011 and reads back as 0b010. -/
theorem writeBits_readBits_roundtrip_witness :
    readBitsExtract (writeBitsUpdate 0xAF 4 3 2) 4 3 = 2 ∧
      writeBitsUpdate 0xAF 4 3 2 = 0xAB :=
  ⟨(writeBits_readBits_roundtrip 4 3 0xAF 2 (by decide) (by decide) (by decide)
      (by decide)).1,
   by decide⟩

/-- The field extraction exactly as the spec words it:
(b and (((1 shl length) - 1) shl (bitStart - length + 1))) shr
(bitStart - length + 1), with no intermediate 8-bit truncation. -/
def specReadBitsField (b bitStart length : Nat) : Nat :=
  (b &&& (((1 <<< length) - 1) <<< (bitStart + 1 - length))) >>> (bitStart + 1 - length)

/-- C7: for every (bitStart, length) with 0 ≤ length ≤ bitStart+1 ≤ 8 and
every register byte b, the value I2Cdev_readBits stores is exactly the
spec's right-aligned field formula (the uint8_t truncation of the mask is
the identity in this range). -/
theorem readBits_extracts_field (bitStart length b : Nat)
    (h1 : length ≤ bitStart + 1) (h2 : bitStart < 8) :
    readBitsExtract b bitStart length = specReadBitsField b bitStart length := by
  unfold readBitsExtract specReadBitsField maskOf
  rw [shiftOf_eq h1]
  have hp : (2 : Nat) ^ length - 1 < 2 ^ length :=
    Nat.sub_lt (pow_pos (by norm_num) _) (by norm_num)
  have hlt : ((1 <<< length) - 1) <<< (bitStart + 1 - length) < 256 := by
    rw [Nat.one_shiftLeft, Nat.shiftLeft_eq, show (256 : Nat) = 2 ^ 8 from rfl]
    calc (2 ^ length - 1) * 2 ^ (bitStart + 1 - length)
        < 2 ^ length * 2 ^ (bitStart + 1 - length) :=
          mul_lt_mul_of_pos_right hp (pow_pos (by norm_num) _)
      _ = 2 ^ (length + (bitStart + 1 - length)) := by rw [pow_add]
      _ ≤ 2 ^ 8 := Nat.pow_le_pow_right (by norm_num) (by omega)
  rw [Nat.mod_eq_of_lt hlt]

/-- Witness for `readBits_extracts_field`: byte 0b01101001 at bitStart=4,
length=3 yields field 0b010 = 2, matching the spec formula. -/
theorem readBits_extracts_field_witness :
    readBitsExtract 0b01101001 4 3 = specReadBitsField 0b01101001 4 3 ∧
      readBitsExtract 0b01101001 4 3 = 2 :=
  ⟨readBits_extracts_field 4 3 0b01101001 (by decide) (by decide), by decide⟩

/-! ### Concrete bus runs -/

/-- A fully acknowledging bus run for a 4-byte read: START, SLA+W ACK,
register ACK, repeated START, SLA+R ACK, four data bytes
0x12 0x34 0x56 0x78 (ACK, ACK, ACK, final NACK). -/
def envReadOk : Env :=
  ⟨fun _ _ => true,
   fun k => [0x08, 0x18, 0x28, 0x10, 0x40, 0x50, 0x50, 0x50, 0x58, 0x00].getD k 0,
   fun k => [0, 0, 0, 0, 0, 0x12, 0x34, 0x56, 0x78, 0].getD k 0,
   fun _ => 0⟩

/-- A fully acknowledging bus run for a write of up to four data bytes. -/
def envWriteOk : Env :=
  ⟨fun _ _ => true,
   fun k => [0x08, 0x18, 0x28, 0x28, 0x28, 0x28, 0x28, 0x00].getD k 0,
   fun _ => 0, fun _ => 0⟩

/-- A write run in which the first data byte after the register address is
not acknowledged (TW_MT_DATA_NACK at the fourth busy-wait). -/
def envWriteNack : Env :=
  ⟨fun _ _ => true,
   fun k => [0x08, 0x18, 0x28, 0x30, 0x00].getD k 0,
   fun _ => 0, fun _ => 0⟩

/-- A dead bus: the TWINT operation-complete flag never appears, so every
busy-wait exhausts its 250-iteration spin budget. -/
def envDead : Env := ⟨fun _ _ => false, fun _ => 0, fun _ => 0, fun _ => 0⟩

/-- C1 (code bug): on the little-endian AVR target, with the device
delivering raw bytes 0x12 0x34 0x56 0x78 for a 2-word read,
I2Cdev_readWords reports success (count 2) but assembles word 0 as
0x7A56, not the big-endian 0x1234 the spec states: the source declares
uint16_t intermediate[length], fills it bytewise, then indexes the 16-bit
cells (not the bytes) at 2i and 2i+1, so word 0 is
(cell0 shl 8) or cell1 = (0x3412 shl 8 or 0x7856) mod 2^16, and the cells
at odd pair indices are read out of the array's bounds (here modelled by
the oob oracle, frozen to 0). -/
theorem readWords_assembles_from_u16_cells :
    (I2Cdev_readWords envReadOk 0x68 0x0D 2 [0, 0] (fun _ => 0) (fun _ => 0) 1000
        ⟨0, []⟩).1 = 2 ∧
      (I2Cdev_readWords envReadOk 0x68 0x0D 2 [0, 0] (fun _ => 0) (fun _ => 0) 1000
        ⟨0, []⟩).2.1 = [0x7A56, 0] ∧
      (0x7A56 : Nat) ≠ 0x1234 := by
  refine ⟨by decide, by decide, by decide⟩

/-- C2 (code bug): writing the 2-word buffer [0x1234, 0x5678] on a fully
acknowledging bus transmits the payload bytes 0x12 0x34 0xBE 0xEF: the
loop index advances by two per word against the bound length*2, so
data[1] = 0x5678 is skipped and data[2] is read out of bounds (the junk
oracle, frozen to 0xBEEF); no Ev.send 0x56 or Ev.send 0x78 ever happens. -/
theorem writeWords_skips_odd_words :
    I2Cdev_writeWords envWriteOk 0x68 0x0D 2 [0x1234, 0x5678] (fun _ => 0xBEEF) ⟨0, []⟩ =
      (1, ⟨8, [Ev.ctrl cmdStart, Ev.send 0xD0, Ev.ctrl cmdGo, Ev.send 0x0D, Ev.ctrl cmdGo,
        Ev.send 0x12, Ev.ctrl cmdGo, Ev.send 0x34, Ev.ctrl cmdGo,
        Ev.send 0xBE, Ev.ctrl cmdGo, Ev.send 0xEF, Ev.ctrl cmdGo, Ev.ctrl cmdStop]⟩) ∧
      Ev.send 0x56 ∉ (I2Cdev_writeWords envWriteOk 0x68 0x0D 2 [0x1234, 0x5678]
        (fun _ => 0xBEEF) ⟨0, []⟩).2.log ∧
      Ev.send 0x78 ∉ (I2Cdev_writeWords envWriteOk 0x68 0x0D 2 [0x1234, 0x5678]
        (fun _ => 0xBEEF) ⟨0, []⟩).2.log := by
  refine ⟨by decide, by decide, by decide⟩

/-- C3 counterexample: on a run whose first data byte is NACKed
(TW_MT_DATA_NACK, as the same-position Fastwire_write status 2 shows),
I2Cdev_writeBytes still returns 1 (success), refuting the claim that a
NACK on any byte makes the call return failure. -/
theorem writeBytes_success_despite_nack :
    (I2Cdev_writeBytes envWriteNack 0x68 0x0D 1 [0x55] (fun _ => 0) ⟨0, []⟩).1 = 1 ∧
      (Fastwire_write envWriteNack 0x55 ⟨3, []⟩).1 = 2 ∧
      envWriteNack.twsr 3 &&& 0xF8 = TW_MT_DATA_NACK := by
  refine ⟨by decide, by decide, by decide⟩

/-- C3 amended: I2Cdev_writeBytes discards the status of every Fastwire
call (the status variable is initialized to 0 and never assigned; the
endTransmission call is commented out), so it returns 1 = success for
every bus run, every device, register, and buffer. -/
theorem writeBytes_always_returns_success (env : Env) (devAddr regAddr length : Nat)
    (data : List Nat) (junk : Nat → Nat) (s : St) :
    (I2Cdev_writeBytes env devAddr regAddr length data junk s).1 = 1 := by
  simp [I2Cdev_writeBytes]

/-- C4 (code bug): on a dead bus the initial read of I2Cdev_writeBits
fails (Fastwire_readBuf returns 16, so readBytes' int8_t count -1 comes
back as 255 through the uint8_t return type, as the second conjunct
shows), yet writeBits does not return false with no bus write: the 255
passes its count != 0 guard, so it masks the junk initial byte 0xFF into
0xEB and performs the whole write transaction (register byte 0x0D and
payload 0xEB on the wire), returning writeByte's result 1. -/
theorem writeBits_writes_after_failed_read :
    I2Cdev_writeBits envDead 0x68 0x0D 4 3 2 0xFF ⟨0, []⟩ =
      (1, ⟨5, [Ev.ctrl cmdStart, Ev.ctrl cmdStart, Ev.send 0x0D, Ev.ctrl cmdGo,
        Ev.send 0xEB, Ev.ctrl cmdGo, Ev.ctrl cmdStop]⟩) ∧
      (I2Cdev_readByte envDead 0x68 0x0D 0xFF I2CDEV_DEFAULT_READ_TIMEOUT ⟨0, []⟩).1 =
        ((-1 : Int).emod 256).toNat := by
  refine ⟨by decide, by decide⟩

/-! ### Busy-wait lemmas -/

lemma waitIntLoop_succ (flag : Nat → Bool) (j l : Nat) :
    Fastwire_waitIntLoop flag j (l+1) =
      if flag j then ((l+1 : Nat) : Int) else Fastwire_waitIntLoop flag (j+1) l := rfl

lemma waitInt_of_flag {f : Nat → Bool} (h : f 0 = true) : Fastwire_waitInt f = true := by
  unfold Fastwire_waitInt
  rw [show (250 : Nat) = 249 + 1 from rfl, waitIntLoop_succ, h]
  simp

lemma waitIntLoop_allFalse {f : Nat → Bool} (h : ∀ j, f j = false) :
    ∀ l j, Fastwire_waitIntLoop f j l = -1 := by
  intro l
  induction l with
  | zero => intro j; simp [Fastwire_waitIntLoop, h j]
  | succ n ih => intro j; rw [waitIntLoop_succ, h j]; simpa using ih (j+1)

lemma waitInt_allFalse {f : Nat → Bool} (h : ∀ j, f j = false) :
    Fastwire_waitInt f = false := by
  unfold Fastwire_waitInt
  rw [waitIntLoop_allFalse h 250 0]
  decide

lemma fwReadAddrWLoop_err (env : Env) (device retry : Nat) (s : St) (e x : Nat) (st : St)
    (ha : fwReadAddrWAttempt env device s = (some e, x, st)) :
    fwReadAddrWLoop env device retry s = (e, st) := by
  cases retry <;> simp only [fwReadAddrWLoop] <;> rw [ha]

/-- C8: on a bus whose status register never shows the operation-complete
TWINT bit, every busy-wait exhausts its 250-iteration spin budget, so
I2Cdev_readBytes fails at the very first wait of the transaction: it
returns the failure sentinel (int8_t -1, i.e. 255 through the uint8_t
return type) and the caller's data buffer is returned unchanged; the only
bus action performed is the initial START command. -/
theorem readBytes_spin_exhausted (env : Env) (devAddr regAddr length timeout : Nat)
    (data : List Nat) (s : St) (hf : ∀ k j, env.flag k j = false) :
    I2Cdev_readBytes env devAddr regAddr length data timeout s =
      (((-1 : Int).emod 256).toNat, data, ⟨s.k + 1, s.log ++ [Ev.ctrl cmdStart]⟩) := by
  have hw : ∀ k, Fastwire_waitInt (env.flag k) = false := fun k => waitInt_allFalse (hf k)
  have ha : fwReadAddrWAttempt env ((devAddr <<< 1) % 256) s =
      (some 16, 0, ⟨s.k + 1, s.log ++ [Ev.ctrl cmdStart]⟩) := by
    unfold fwReadAddrWAttempt busWait St.ctrl
    simp [hw]
  unfold I2Cdev_readBytes Fastwire_readBuf
  rw [fwReadAddrWLoop_err env ((devAddr <<< 1) % 256) 2 s 16 0 _ ha]
  simp

/-- Witness for `readBytes_spin_exhausted` on the concrete dead bus. -/
theorem readBytes_spin_exhausted_witness :
    I2Cdev_readBytes envDead 0x68 0x0D 1 [0xAA] 1000 ⟨0, []⟩ =
      (((-1 : Int).emod 256).toNat, [0xAA], ⟨1, [Ev.ctrl cmdStart]⟩) :=
  readBytes_spin_exhausted envDead 0x68 0x0D 1 1000 [0xAA] ⟨0, []⟩ (fun _ _ => rfl)

/-! ### Address-phase retry lemmas -/

lemma fwReadAddrWAttempt_eval (env : Env) (device : Nat) (s : St)
    (h0 : env.flag s.k 0 = true) (h1 : env.flag (s.k + 1) 0 = true)
    (hst : env.twsr s.k &&& 0xF8 = TW_START ∨ env.twsr s.k &&& 0xF8 = TW_REP_START) :
    fwReadAddrWAttempt env device s =
      (none, env.twsr (s.k + 1) &&& 0xF8,
        ⟨s.k + 2, s.log ++ [Ev.ctrl cmdStart, Ev.send (device &&& 0xFE), Ev.ctrl cmdGo]⟩) := by
  have hw0 : Fastwire_waitInt (env.flag s.k) = true := waitInt_of_flag h0
  have hw1 : Fastwire_waitInt (env.flag (s.k + 1)) = true := waitInt_of_flag h1
  unfold fwReadAddrWAttempt busWait St.ctrl St.send
  rcases hst with h | h <;>
    simp [hw0, hw1, h, TW_START, TW_REP_START, Nat.add_assoc]

lemma fwReadAddrWLoop_nackStep (env : Env) (device : Nat) (r : Nat) (s st : St)
    (ha : fwReadAddrWAttempt env device s = (none, TW_MT_SLA_NACK, st)) :
    fwReadAddrWLoop env device (r+1) s = fwReadAddrWLoop env device r st := by
  simp only [fwReadAddrWLoop]
  rw [ha]
  simp

lemma fwReadAddrWLoop_nackStop (env : Env) (device : Nat) (s st : St)
    (ha : fwReadAddrWAttempt env device s = (none, TW_MT_SLA_NACK, st)) :
    fwReadAddrWLoop env device 0 s = (19, st) := by
  simp only [fwReadAddrWLoop]
  rw [ha]
  simp [TW_MT_SLA_NACK, TW_MT_SLA_ACK]

/-- C5 amended: the retry budget retry = 2, tested with retry-- > 0 after
an initial attempt, allows three address attempts; a run in which the
slave NACKs the write-direction address phase three times in a row makes
Fastwire_readBuf return 19 (the address-NACK code of the write-address
phase) with the caller's buffer untouched and nothing beyond the three
START/address attempts on the wire (event counter s.k + 6): no data phase
is attempted.  (Two NACKs in a row do not exhaust the budget; see the
counterexample.) -/
theorem readBuf_addr_nack_exhausted (env : Env) (device address : Nat) (data : List Nat)
    (num : Nat) (s : St)
    (hf : ∀ t, t < 6 → env.flag (s.k + t) 0 = true)
    (hstart : ∀ t, t < 3 → env.twsr (s.k + 2*t) &&& 0xF8 = TW_START ∨
        env.twsr (s.k + 2*t) &&& 0xF8 = TW_REP_START)
    (hnack : ∀ t, t < 3 → env.twsr (s.k + (2*t+1)) &&& 0xF8 = TW_MT_SLA_NACK) :
    Fastwire_readBuf env device address data num s =
      (19, data,
        ⟨s.k + 6, s.log ++ [Ev.ctrl cmdStart, Ev.send (device &&& 0xFE), Ev.ctrl cmdGo,
          Ev.ctrl cmdStart, Ev.send (device &&& 0xFE), Ev.ctrl cmdGo,
          Ev.ctrl cmdStart, Ev.send (device &&& 0xFE), Ev.ctrl cmdGo]⟩) := by
  have a1 : fwReadAddrWAttempt env device s =
      (none, TW_MT_SLA_NACK,
        ⟨s.k + 2, s.log ++ [Ev.ctrl cmdStart, Ev.send (device &&& 0xFE), Ev.ctrl cmdGo]⟩) := by
    rw [fwReadAddrWAttempt_eval env device s (by simpa using hf 0 (by omega))
      (by simpa using hf 1 (by omega)) (by simpa using hstart 0 (by omega))]
    have := hnack 0 (by omega)
    simp at this
    rw [this]
  have a2 : fwReadAddrWAttempt env device
      ⟨s.k + 2, s.log ++ [Ev.ctrl cmdStart, Ev.send (device &&& 0xFE), Ev.ctrl cmdGo]⟩ =
      (none, TW_MT_SLA_NACK,
        ⟨s.k + 4, s.log ++ [Ev.ctrl cmdStart, Ev.send (device &&& 0xFE), Ev.ctrl cmdGo,
          Ev.ctrl cmdStart, Ev.send (device &&& 0xFE), Ev.ctrl cmdGo]⟩) := by
    rw [fwReadAddrWAttempt_eval env device _ (by simpa using hf 2 (by omega))
      (by simpa [Nat.add_assoc] using hf 3 (by omega))
      (by simpa using hstart 1 (by omega))]
    have := hnack 1 (by omega)
    simp at this
    simp [Nat.add_assoc, this]
  have a3 : fwReadAddrWAttempt env device
      ⟨s.k + 4, s.log ++ [Ev.ctrl cmdStart, Ev.send (device &&& 0xFE), Ev.ctrl cmdGo,
        Ev.ctrl cmdStart, Ev.send (device &&& 0xFE), Ev.ctrl cmdGo]⟩ =
      (none, TW_MT_SLA_NACK,
        ⟨s.k + 6, s.log ++ [Ev.ctrl cmdStart, Ev.send (device &&& 0xFE), Ev.ctrl cmdGo,
          Ev.ctrl cmdStart, Ev.send (device &&& 0xFE), Ev.ctrl cmdGo,
          Ev.ctrl cmdStart, Ev.send (device &&& 0xFE), Ev.ctrl cmdGo]⟩) := by
    rw [fwReadAddrWAttempt_eval env device _ (by simpa using hf 4 (by omega))
      (by simpa [Nat.add_assoc] using hf 5 (by omega))
      (by simpa using hstart 2 (by omega))]
    have := hnack 2 (by omega)
    simp at this
    simp [Nat.add_assoc, this]
  have L : fwReadAddrWLoop env device 2 s =
      (19, ⟨s.k + 6, s.log ++ [Ev.ctrl cmdStart, Ev.send (device &&& 0xFE), Ev.ctrl cmdGo,
        Ev.ctrl cmdStart, Ev.send (device &&& 0xFE), Ev.ctrl cmdGo,
        Ev.ctrl cmdStart, Ev.send (device &&& 0xFE), Ev.ctrl cmdGo]⟩) :=
    (fwReadAddrWLoop_nackStep env device 1 s _ a1).trans
      ((fwReadAddrWLoop_nackStep env device 0 _ _ a2).trans
        (fwReadAddrWLoop_nackStop env device _ _ a3))
  unfold Fastwire_readBuf
  rw [L]
  simp

/-- A run in which the slave NACKs the write-direction address exactly
three times in a row (and the bus is otherwise healthy). -/
def envAddrNack3 : Env :=
  ⟨fun _ _ => true,
   fun k => [0x08, 0x20, 0x10, 0x20, 0x10, 0x20].getD k 0,
   fun _ => 0, fun _ => 0⟩

/-- Witness for `readBuf_addr_nack_exhausted` on a concrete
three-NACK run. -/
theorem readBuf_addr_nack_exhausted_witness :
    Fastwire_readBuf envAddrNack3 0xD0 0x0D [0x77] 1 ⟨0, []⟩ =
      (19, [0x77],
        ⟨6, [Ev.ctrl cmdStart, Ev.send 0xD0, Ev.ctrl cmdGo,
          Ev.ctrl cmdStart, Ev.send 0xD0, Ev.ctrl cmdGo,
          Ev.ctrl cmdStart, Ev.send 0xD0, Ev.ctrl cmdGo]⟩) := by
  have := readBuf_addr_nack_exhausted envAddrNack3 0xD0 0x0D [0x77] 1 ⟨0, []⟩
    (by decide) (by decide) (by decide)
  simpa using this

/-- A run in which the slave NACKs the write-direction address exactly
twice in a row, then acknowledges everything; the single data byte
delivered is 0xAB. -/
def envAddrNack2 : Env :=
  ⟨fun _ _ => true,
   fun k => [0x08, 0x20, 0x10, 0x20, 0x10, 0x18, 0x28, 0x10, 0x40, 0x58, 0x00].getD k 0,
   fun k => [0, 0, 0, 0, 0, 0, 0, 0, 0, 0xAB, 0].getD k 0,
   fun _ => 0⟩

/-- C5 counterexample: a run in which the slave NACKs the address phase
twice in a row (TW_MT_SLA_NACK at the 2nd and 4th busy-waits) does NOT
exhaust the retry budget: the third attempt is made, succeeds, and the
read completes with status 0 delivering the data byte 0xAB — not the
AddressNack failure the claim states. -/
theorem readBuf_two_nacks_then_ack_succeeds :
    (Fastwire_readBuf envAddrNack2 0xD0 0x0D [0x00] 1 ⟨0, []⟩).1 = 0 ∧
      (Fastwire_readBuf envAddrNack2 0xD0 0x0D [0x00] 1 ⟨0, []⟩).2.1 = [0xAB] ∧
      envAddrNack2.twsr 1 &&& 0xF8 = TW_MT_SLA_NACK ∧
      envAddrNack2.twsr 3 &&& 0xF8 = TW_MT_SLA_NACK := by
  refine ⟨by decide, by decide, by decide, by decide⟩

/-! ### Data-phase lemmas -/

lemma fwReadData_zero (env : Env) (num i : Nat) (data : List Nat) (s : St) :
    fwReadData env num i 0 data s = (none, data, s) := rfl

lemma fwReadData_succ (env : Env) (num i fuel : Nat) (data : List Nat) (s : St) :
    fwReadData env num i (fuel+1) data s =
      if i < num then
        (let s1 := St.ctrl s (if i = num - 1 then cmdGo else cmdRecvAck)
         let w := busWait env s1
         if w.1 = false then (some 26, data, w.2.2.2)
         else if w.2.1 &&& 0xF8 ≠ TW_MR_DATA_ACK ∧ w.2.1 &&& 0xF8 ≠ TW_MR_DATA_NACK then
           (some (w.2.1 &&& 0xF8), data, w.2.2.2)
         else fwReadData env num (i+1) fuel (data.set i w.2.2.1) w.2.2.2)
      else (none, data, s) := rfl

lemma fwReadData_ack_run (env : Env) (num : Nat) :
    ∀ fuel i data s, i + fuel = num →
      (∀ t, t < fuel → env.flag (s.k + t) 0 = true) →
      (∀ t, t < fuel → env.twsr (s.k + t) &&& 0xF8 = TW_MR_DATA_ACK ∨
          env.twsr (s.k + t) &&& 0xF8 = TW_MR_DATA_NACK) →
      ∃ out, fwReadData env num i fuel data s =
        (none, out, ⟨s.k + fuel, s.log ++ (List.range fuel).map
          (fun t => Ev.ctrl (if i + t = num - 1 then cmdGo else cmdRecvAck))⟩) := by
  intro fuel
  induction fuel with
  | zero =>
    intro i data s _ _ _
    exact ⟨data, by simp [fwReadData_zero]⟩
  | succ n ih =>
    intro i data s hsum hf hs
    have hi : i < num := by omega
    have hw : Fastwire_waitInt (env.flag s.k) = true :=
      waitInt_of_flag (by simpa using hf 0 (by omega))
    obtain ⟨out, hout⟩ := ih (i+1)
      (data.set i (env.twdr s.k % 256))
      ⟨s.k + 1, s.log ++ [Ev.ctrl (if i = num - 1 then cmdGo else cmdRecvAck)]⟩
      (by omega)
      (fun t ht => by
        have := hf (t+1) (by omega)
        simpa [show s.k + (t + 1) = s.k + 1 + t from by omega] using this)
      (fun t ht => by
        have := hs (t+1) (by omega)
        simpa [show s.k + (t + 1) = s.k + 1 + t from by omega] using this)
    refine ⟨out, ?_⟩
    have hmap : (List.range (n+1)).map
        (fun t => Ev.ctrl (if i + t = num - 1 then cmdGo else cmdRecvAck)) =
        Ev.ctrl (if i = num - 1 then cmdGo else cmdRecvAck) ::
          (List.range n).map
            (fun t => Ev.ctrl (if i + 1 + t = num - 1 then cmdGo else cmdRecvAck)) := by
      rw [List.range_succ_eq_map, List.map_cons, List.map_map]
      have htail : List.map
          ((fun t => Ev.ctrl (if i + t = num - 1 then cmdGo else cmdRecvAck)) ∘ Nat.succ)
          (List.range n) =
          List.map (fun t => Ev.ctrl (if i + 1 + t = num - 1 then cmdGo else cmdRecvAck))
            (List.range n) := by
        refine List.map_congr_left fun t _ => ?_
        have h2 : i + (t + 1) = i + 1 + t := by omega
        simp only [Function.comp_apply, Nat.succ_eq_add_one, h2]
      rw [htail]
      simp
    have hstep : fwReadData env num i (n+1) data s =
        fwReadData env num (i + 1) n (data.set i (env.twdr s.k % 256))
          ⟨s.k + 1, s.log ++ [Ev.ctrl (if i = num - 1 then cmdGo else cmdRecvAck)]⟩ := by
      rw [fwReadData_succ]
      rcases (show env.twsr s.k &&& 0xF8 = TW_MR_DATA_ACK ∨
          env.twsr s.k &&& 0xF8 = TW_MR_DATA_NACK from by simpa using hs 0 (by omega)) with
        h | h <;>
        simp [hi, busWait, St.ctrl, hw, h, TW_MR_DATA_ACK, TW_MR_DATA_NACK]
    rw [hstep, hout]
    refine congrArg (Prod.mk none) (congrArg (Prod.mk out) ?_)
    congr 1
    · show s.k + 1 + n = s.k + (n + 1)
      omega
    · rw [hmap]
      simp [List.append_assoc]

/-- C9 amended: in the data phase of Fastwire_readBuf, (1) on a run whose
num data-byte statuses are all TW_MR_DATA_ACK or TW_MR_DATA_NACK, the
master issues exactly one TWCR command per byte, with the TWEA
continue-acknowledge bit for every byte except the last and without it
for the final byte, and the loop completes; (2) when the masked status at
a byte is neither TW_MR_DATA_ACK nor TW_MR_DATA_NACK the loop stops and
returns that raw masked status with the buffer unchanged — which is a
nonzero (failure) code for every status except the bus-error status 0x00,
where it coincides with the success code (see the counterexample);
(3) the command used for non-final bytes does assert the TWEA bit and the
final-byte command does not. -/
theorem readBuf_data_phase_ack_control :
    (∀ (env : Env) (num : Nat) (data : List Nat) (s : St), 1 ≤ num →
      (∀ t, t < num → env.flag (s.k + t) 0 = true) →
      (∀ t, t < num → env.twsr (s.k + t) &&& 0xF8 = TW_MR_DATA_ACK ∨
          env.twsr (s.k + t) &&& 0xF8 = TW_MR_DATA_NACK) →
      ∃ out, fwReadData env num 0 num data s =
        (none, out, ⟨s.k + num, s.log ++ (List.range num).map
          (fun t => Ev.ctrl (if t = num - 1 then cmdGo else cmdRecvAck))⟩)) ∧
    (∀ (env : Env) (num i fuel : Nat) (data : List Nat) (s : St), i < num →
      env.flag s.k 0 = true →
      env.twsr s.k &&& 0xF8 ≠ TW_MR_DATA_ACK →
      env.twsr s.k &&& 0xF8 ≠ TW_MR_DATA_NACK →
      fwReadData env num i (fuel+1) data s =
        (some (env.twsr s.k &&& 0xF8), data,
          ⟨s.k + 1, s.log ++ [Ev.ctrl (if i = num - 1 then cmdGo else cmdRecvAck)]⟩)) ∧
    cmdRecvAck &&& (1 <<< TWEA) ≠ 0 ∧ cmdGo &&& (1 <<< TWEA) = 0 := by
  refine ⟨?_, ?_, by decide, by decide⟩
  · intro env num data s _ hf hs
    obtain ⟨out, h⟩ := fwReadData_ack_run env num num 0 data s (by omega) hf hs
    exact ⟨out, by simpa using h⟩
  · intro env num i fuel data s hi hflag hb1 hb2
    have hw : Fastwire_waitInt (env.flag s.k) = true := waitInt_of_flag hflag
    rw [fwReadData_succ]
    simp [hi, hw, busWait, St.ctrl, hb1, hb2]

/-- A run whose data-phase statuses are all TW_MR_DATA_ACK, delivering the
byte 0xCD each time. -/
def envAckRun : Env := ⟨fun _ _ => true, fun _ => 0x50, fun _ => 0xCD, fun _ => 0⟩

/-- Witness for `readBuf_data_phase_ack_control`: a 2-byte data phase
issues the TWEA command then the no-TWEA command. -/
theorem readBuf_data_phase_ack_control_witness :
    ∃ out, fwReadData envAckRun 2 0 2 [0, 0] ⟨0, []⟩ =
      (none, out, ⟨2, [Ev.ctrl cmdRecvAck, Ev.ctrl cmdGo]⟩) := by
  obtain ⟨out, h⟩ := readBuf_data_phase_ack_control.1 envAckRun 2 [0, 0] ⟨0, []⟩
    (by decide) (fun t _ => rfl)
    (fun t _ => Or.inl (by show (0x50 : Nat) &&& 0xF8 = TW_MR_DATA_ACK; decide))
  exact ⟨out, by rw [h]; rfl⟩

/-- A run that reaches the data phase and then reads the bus-error status
0x00 on the first data byte. -/
def envBusErr : Env :=
  ⟨fun _ _ => true,
   fun k => [0x08, 0x18, 0x28, 0x10, 0x40, 0x00].getD k 0,
   fun _ => 0, fun _ => 0⟩

/-- C9 counterexample: when the masked status of a data byte is 0x00
(bus error) — neither TW_MR_DATA_ACK nor TW_MR_DATA_NACK — Fastwire_readBuf
returns that raw status, 0, which is the success code: I2Cdev_readBytes
then reports a full success count with the buffer untouched, instead of
the protocol-error failure the claim states. -/
theorem readBuf_bus_error_status_reported_success :
    (Fastwire_readBuf envBusErr 0xD0 0x0D [0x77] 1 ⟨0, []⟩).1 = 0 ∧
      (I2Cdev_readBytes envBusErr 0x68 0x0D 1 [0x77] 1000 ⟨0, []⟩).1 = 1 ∧
      (I2Cdev_readBytes envBusErr 0x68 0x0D 1 [0x77] 1000 ⟨0, []⟩).2.1 = [0x77] ∧
      envBusErr.twsr 5 &&& 0xF8 ≠ TW_MR_DATA_ACK ∧
      envBusErr.twsr 5 &&& 0xF8 ≠ TW_MR_DATA_NACK := by
  refine ⟨by decide, by decide, by decide, by decide, by decide⟩

/-- C10: I2Cdev_writeBit and I2Cdev_writeBitW never inspect the count
returned by their initial register read: each is, for every bus run,
exactly the write-back applied to whatever byte/word the read produced
(the uninitialized local on failure), so the write transaction is issued
even when the read fails and the return value is the write's alone.
The closed conjuncts run writeBit on a dead bus: the read fails with the
255 sentinel (int8_t -1 through uint8_t), yet the modified byte 0x40 is
still transmitted and the call returns writeByte's result 1. -/
theorem writeBit_writeback_unconditional :
    (∀ (env : Env) (devAddr regAddr bitNum data binit : Nat) (s : St),
      I2Cdev_writeBit env devAddr regAddr bitNum data binit s =
        I2Cdev_writeByte env devAddr regAddr
          (bitWrite8 (I2Cdev_readByte env devAddr regAddr binit
            I2CDEV_DEFAULT_READ_TIMEOUT s).2.1 bitNum data)
          (I2Cdev_readByte env devAddr regAddr binit I2CDEV_DEFAULT_READ_TIMEOUT s).2.2) ∧
    (∀ (env : Env) (devAddr regAddr bitNum data winit : Nat) (binit oob : Nat → Nat) (s : St),
      I2Cdev_writeBitW env devAddr regAddr bitNum data winit binit oob s =
        I2Cdev_writeWord env devAddr regAddr
          (bitWrite16 (I2Cdev_readWord env devAddr regAddr winit binit oob
            I2CDEV_DEFAULT_READ_TIMEOUT s).2.1 bitNum data)
          (I2Cdev_readWord env devAddr regAddr winit binit oob
            I2CDEV_DEFAULT_READ_TIMEOUT s).2.2) ∧
    I2Cdev_writeBit envDead 0x68 0x0D 6 1 0x00 ⟨0, []⟩ =
      (1, ⟨5, [Ev.ctrl cmdStart, Ev.ctrl cmdStart, Ev.send 0x0D, Ev.ctrl cmdGo,
        Ev.send 0x40, Ev.ctrl cmdGo, Ev.ctrl cmdStop]⟩) ∧
    (I2Cdev_readByte envDead 0x68 0x0D 0x00 I2CDEV_DEFAULT_READ_TIMEOUT ⟨0, []⟩).1 =
      ((-1 : Int).emod 256).toNat := by
  refine ⟨fun env devAddr regAddr bitNum data binit s => rfl,
    fun env devAddr regAddr bitNum data winit binit oob s => rfl,
    by decide, by decide⟩

end I2C
